import Mathlib

/-!
Shallow embedding of the cross-domain session bridging subsystem of the
multi-tenant dashboard server (NestJS/Express source under `src/server/src`).

Conventions of the embedding:
* Each synchronous handler invocation is modelled with a single clock
  reading `now : Nat` (milliseconds), standing for the `Date.now()` calls
  made during that invocation.
* JavaScript truthiness on optional strings/numbers is modelled explicitly
  (`jsOrNat`, `jsTruthyStr`): `undefined`, `''` and `0` are falsy.
* `String.prototype.includes` is modelled by `strIncludes`, defined by
  structural recursion over the character lists.
* Mutable shared state (the `tempAuthTokens` map, the per-request session
  object) is threaded explicitly: every operation returns the updated state.
* Thrown `UnauthorizedException`s are modelled as error values.
-/

namespace MultiTenant

/-- JS `x || d` for an optional number field: `undefined` and `0` are falsy. -/
def jsOrNat : Option Nat → Nat → Nat
  | none, d => d
  | some 0, d => d
  | some v, _ => v

/-- JS truthiness of an optional string: `undefined` and `''` are falsy. -/
def jsTruthyStr : Option String → Bool
  | none => false
  | some s => !(s == "")

/-- `charsStartsWith pat hay` : does `hay` start with `pat`? -/
def charsStartsWith : List Char → List Char → Bool
  | [], _ => true
  | _ :: _, [] => false
  | a :: as, b :: bs => a == b && charsStartsWith as bs

/-- `charsIncludes pat hay` : does `hay` contain `pat` as a contiguous run? -/
def charsIncludes (pat : List Char) : List Char → Bool
  | [] => charsStartsWith pat []
  | c :: t => charsStartsWith pat (c :: t) || charsIncludes pat t

/-- Model of JS `hay.includes(pat)` on strings. -/
def strIncludes (hay pat : String) : Bool :=
  charsIncludes pat.data hay.data

/-- `User` record of `user.service.ts` (in-memory user directory). -/
structure User where
  id : String
  email : String
  name : String
  password : String
  tenants : List String
deriving Repr, DecidableEq

/-- The in-memory user database of `UserService`. -/
def users : List User :=
  [⟨"1", "john@example.com", "John Doe", "password123", ["acme", "globex"]⟩]

/-- `UserService.findByEmail`. -/
def findByEmail (us : List User) (email : String) : Option User :=
  us.find? (fun u => u.email == email)

/-- `UserService.findById`: tenant-scoped lookup `(id, tenantId)`. -/
def findById (us : List User) (id tenantId : String) : Option User :=
  us.find? (fun u => u.id == id && u.tenants.contains tenantId)

/-- `TempAuthToken` record of `auth.service.ts`. -/
structure TempAuthToken where
  id : String
  tenantId : String
  expires : Nat
deriving Repr, DecidableEq

/-- The `tempAuthTokens : Map<string, TempAuthToken>` store, as a lookup
function from token strings to records. -/
def TokenMap := String → Option TempAuthToken

/-- The empty token store. -/
def TokenMap.empty : TokenMap := fun _ => none

/-- `Map.set`. -/
def TokenMap.set (m : TokenMap) (k : String) (v : TempAuthToken) : TokenMap :=
  fun k' => if k' = k then some v else m k'

/-- `Map.delete`. -/
def TokenMap.del (m : TokenMap) (k : String) : TokenMap :=
  fun k' => if k' = k then none else m k'

/-- `AuthService.cleanExpiredTokens`: delete every record with
`expires < now`, keep the rest untouched. -/
def cleanExpiredTokens (m : TokenMap) (now : Nat) : TokenMap :=
  fun k =>
    match m k with
    | some v => if v.expires < now then none else some v
    | none => none

/-- `AuthService.generateTenantToken`: store the (externally generated
random) token `tok` with a 30-second expiry, then run the opportunistic
sweep, and return the token together with the updated store. -/
def generateTenantToken (m : TokenMap) (userId tenantId tok : String)
    (now : Nat) : String × TokenMap :=
  let m1 := m.set tok ⟨userId, tenantId, now + 30000⟩
  (tok, cleanExpiredTokens m1 now)

/-- The `session.user` object as written by the server (login sets
`id/email/name/tenants`; tenant redemption sets `id/email/tenant`). -/
structure SessionUser where
  id : String
  email : Option String
  name : Option String
  tenant : Option String
  tenants : Option (List String)
deriving Repr, DecidableEq

/-- One express-session object: its `user` field and the top-level
`lastAccess` timestamp used by the tenant guard. -/
structure SessionState where
  user : Option SessionUser
  lastAccess : Option Nat
deriving Repr, DecidableEq

/-- `VerifyTokenResult` of `auth.service.ts`. -/
structure VerifyTokenResult where
  success : Bool
  message : Option String
deriving Repr, DecidableEq

/-- Full outcome of `AuthService.verifyTenantToken`: the returned result
plus the updated token store and the request session after the call. -/
structure VerifyOutcome where
  result : VerifyTokenResult
  tokens : TokenMap
  session : Option SessionState

/-- `AuthService.verifyTenantToken(token, req)`.

`hostname` is the resolved `req.hostname || req.headers.host?.split(':')[0]
|| ''`; `session` is `req.session` (absent when no session middleware
attached one); `now` the clock during the call. Mirrors the source order:
lookup, expiry check (delete on expiry), hostname-contains-tenant check
(no delete), session write via `findById` with the `'unknown@example.com'`
fallback, then single-use deletion of the token. -/
def verifyTenantToken (m : TokenMap) (us : List User) (token hostname : String)
    (session : Option SessionState) (now : Nat) : VerifyOutcome :=
  match m token with
  | none => ⟨⟨false, some "Invalid or expired token"⟩, m, session⟩
  | some d =>
    if d.expires < now then
      ⟨⟨false, some "Token expired"⟩, m.del token, session⟩
    else if !(strIncludes hostname d.tenantId) then
      ⟨⟨false, some "Invalid tenant"⟩, m, session⟩
    else
      match session with
      | some _ =>
        let u := findById us d.id d.tenantId
        let email :=
          match u with
          | some usr => if usr.email == "" then "unknown@example.com" else usr.email
          | none => "unknown@example.com"
        ⟨⟨true, none⟩, m.del token,
          some ⟨some ⟨d.id, some email, none, some d.tenantId, none⟩, some now⟩⟩
      | none => ⟨⟨false, some "Session not available"⟩, m, session⟩

/-- Outcome of a guard run: request allowed (with the `req.user` binding
`{id, tenantId?}` it installs) or rejected with an `UnauthorizedException`
message. -/
inductive GuardResult where
  | allow (userId : String) (tenantId : Option String)
  | unauthorized (message : String)
deriving Repr, DecidableEq

/-- The body of `TenantSessionGuard.canActivate` (inside the `try`),
returning the fine-grained failure messages and the session state after the
call (`none` when the guard destroyed it). -/
def tenantGuardInner (session : Option SessionState) (hostname : String)
    (now : Nat) : GuardResult × Option SessionState :=
  match session with
  | none => (.unauthorized "No session found", none)
  | some s =>
    match s.user with
    | none => (.unauthorized "User not authenticated", some s)
    | some u =>
      let lastActivity := jsOrNat s.lastAccess now
      let inactiveDuration := now - lastActivity
      if inactiveDuration > 1200000 then
        (.unauthorized "Session expired due to inactivity", none)
      else
        let s' : SessionState := { s with lastAccess := some now }
        if hostname = "login.lvh.me" then
          (.allow u.id none, some s')
        else
          match u.tenant with
          | none => (.unauthorized "No tenant specified", some s')
          | some t =>
            if t = "" then
              (.unauthorized "No tenant specified", some s')
            else if !(strIncludes hostname t) then
              (.unauthorized "Tenant mismatch", some s')
            else
              (.allow u.id (some t), some s')

/-- `TenantSessionGuard.canActivate`: the surrounding `catch` replaces
every internal failure by a generic `UnauthorizedException('Unauthorized')`. -/
def tenantCanActivate (session : Option SessionState) (hostname : String)
    (now : Nat) : GuardResult × Option SessionState :=
  match tenantGuardInner session hostname now with
  | (.allow uid t, s') => (.allow uid t, s')
  | (.unauthorized _, s') => (.unauthorized "Unauthorized", s')

/-- Terminal outcome of `LoginSessionGuard.canActivate`: allow, redirect
(returning `false` after `res.redirect`), or a thrown
`UnauthorizedException` surfaced to the caller. -/
inductive LoginOutcome where
  | allow
  | redirect (url : String)
  | unauthorized (message : String)
deriving Repr, DecidableEq

/-- An intermediate result inside the guard's `try` block: either a value
returned normally or an exception in flight. -/
inductive LoginInner where
  | ok (o : LoginOutcome)
  | thrown (message : String)
deriving Repr, DecidableEq

/-- `LoginSessionGuard.handleLoginRedirect`: redirect to the login page
with the tenant hint when the URL is a tenant-login route
(`req.url.includes('/login/')`) and the tenant parameter is truthy;
otherwise throw. -/
def handleLoginRedirect (url : String) (tenantId : Option String) : LoginInner :=
  match tenantId with
  | some t =>
    if strIncludes url "/login/" && !(t == "") then
      .ok (.redirect ("http://login.lvh.me:3000/login?tenantId=" ++ t))
    else .thrown "Unauthorized - Please log in"
  | none => .thrown "Unauthorized - Please log in"

/-- `LoginSessionGuard.canActivate(context)`.

`session` is `req.session`; `url` is `req.url`; `host` is
`req.headers.host?.split(':')[0]`; `tenantIdParam` is
`req.params?.tenantId`. The `catch` block retries `handleLoginRedirect`
when the tenant parameter is truthy and otherwise throws the generic
`UnauthorizedException('Unauthorized')`; an exception thrown by that
second `handleLoginRedirect` call propagates uncaught. -/
def loginCanActivate (session : Option SessionState) (url : String)
    (host : Option String) (tenantIdParam : Option String) : LoginOutcome :=
  let tryBody : LoginInner :=
    match session with
    | none => handleLoginRedirect url tenantIdParam
    | some s =>
      match s.user with
      | none => handleLoginRedirect url tenantIdParam
      | some _ =>
        let isValidHost :=
          match host with
          | some h => strIncludes h "lvh.me"
          | none => false
        if isValidHost then .ok .allow
        else .thrown "Unauthorized - Invalid host"
  match tryBody with
  | .ok o => o
  | .thrown _ =>
    if jsTruthyStr tenantIdParam then
      match handleLoginRedirect url tenantIdParam with
      | .ok o => o
      | .thrown m => .unauthorized m
    else .unauthorized "Unauthorized"

/-- The two NestJS HTTP exception classes raised by `AuthController`
(`UnauthorizedException` → 401, `ForbiddenException` → 403). -/
inductive HttpError where
  | unauthorizedEx (message : String)
  | forbiddenEx (message : String)
deriving Repr, DecidableEq

/-- Outcome of `AuthController.initSession`: a 301 redirect to the tenant
verification URL, or a thrown HTTP exception. -/
inductive InitSessionResult where
  | redirect (code : Nat) (url : String)
  | error (e : HttpError)
deriving Repr, DecidableEq

/-- Is the outcome a thrown `ForbiddenException`? -/
def InitSessionResult.isForbidden : InitSessionResult → Bool
  | .error (.forbiddenEx _) => true
  | _ => false

/-- `AuthController.initSession` (route `GET /auth/init-session/:tenantId`,
behind `LoginSessionGuard`): requires a session user with a truthy `id`,
requires `tenantId ∈ session.user.tenants` (defaulting to `[]`), then
issues a handoff token via `generateTenantToken` and redirects to
`http://{tenantId}.lvh.me:5173/api/tenant/verify-token/{token}`.
`tok` is the random token produced inside `generateTenantToken`. -/
def initSession (sessionUser : Option SessionUser) (tenantId : String)
    (m : TokenMap) (tok : String) (now : Nat) : InitSessionResult × TokenMap :=
  match sessionUser with
  | none => (.error (.unauthorizedEx "User not authenticated"), m)
  | some u =>
    if u.id == "" then
      (.error (.unauthorizedEx "User not authenticated"), m)
    else
      let userTenants := u.tenants.getD []
      if !(userTenants.contains tenantId) then
        (.error (.unauthorizedEx ("User does not have access to tenant: " ++ tenantId)), m)
      else
        let r := generateTenantToken m u.id tenantId tok now
        (.redirect 301
          ("http://" ++ tenantId ++ ".lvh.me:5173/api/tenant/verify-token/" ++ r.1),
          r.2)

/-- Modelled from the spec: the "subdomain component" of a request host is
its leftmost dot-separated label. Used only to state the spec's notion of
tenant/host matching, for comparison with the source's check. -/
def subdomainComponent (h : String) : String :=
  String.mk (h.data.takeWhile (fun c => c != '.'))

/-- Modelled from the spec: "the session's bound tenantId … a substring
match of requestHost's subdomain component". -/
def specSubdomainMatch (host tenantId : String) : Bool :=
  strIncludes (subdomainComponent host) tenantId

/-- C10: the expiry sweep `cleanExpiredTokens` deletes exactly the tokens
whose `expires` timestamp is strictly before `now` and leaves every
unexpired token unchanged; and the opportunistic sweep at the end of every
`generateTenantToken` never removes the token just issued, which remains
bound to the issuing principal/tenant with `expires = now + 30000`. -/
theorem cleanExpiredTokens_exact :
    (∀ (m : TokenMap) (now : Nat) (k : String) (v : TempAuthToken),
      cleanExpiredTokens m now k = some v ↔ (m k = some v ∧ ¬(v.expires < now))) ∧
    (∀ (m : TokenMap) (userId tenantId tok : String) (now : Nat),
      (generateTenantToken m userId tenantId tok now).2 tok =
        some ⟨userId, tenantId, now + 30000⟩) := by
  constructor
  · intro m now k v
    unfold cleanExpiredTokens
    cases h : m k with
    | none => simp [h]
    | some w =>
      by_cases he : w.expires < now
      · simp only [h, if_pos he]
        constructor
        · intro hc; exact absurd hc (by simp)
        · rintro ⟨hv, hnl⟩
          exact absurd (by injection hv with hv; rw [hv] at he; exact he) hnl
      · simp only [h, if_neg he]
        constructor
        · intro hc
          refine ⟨hc, ?_⟩
          injection hc with hc
          rw [← hc]; exact he
        · rintro ⟨hv, _⟩; exact hv
  · intro m userId tenantId tok now
    have h : ¬(now + 30000 < now) := by omega
    simp [generateTenantToken, cleanExpiredTokens, TokenMap.set, h]

/-- Witness for C10 at concrete inputs: an expired record is swept, the
just-issued token survives the opportunistic sweep. -/
theorem cleanExpiredTokens_exact_witness :
    (cleanExpiredTokens (TokenMap.empty.set "a" ⟨"1", "acme", 10⟩) 20 "a" =
        some ⟨"1", "acme", 10⟩ ↔
      ((TokenMap.empty.set "a" ⟨"1", "acme", 10⟩) "a" = some ⟨"1", "acme", 10⟩ ∧
        ¬((10 : Nat) < 20))) ∧
    (generateTenantToken TokenMap.empty "1" "acme" "tok" 5).2 "tok" =
      some ⟨"1", "acme", 30005⟩ :=
  ⟨cleanExpiredTokens_exact.1 (TokenMap.empty.set "a" ⟨"1", "acme", 10⟩) 20 "a"
      ⟨"1", "acme", 10⟩,
    cleanExpiredTokens_exact.2 TokenMap.empty "1" "acme" "tok" 5⟩

/-- C8: whatever the internal failure of the Tenant-Domain Guard (no
session, not authenticated, idle expiry, missing tenant, tenant mismatch),
the exception surfaced by `canActivate` is the single generic
`UnauthorizedException('Unauthorized')`; the fine-grained messages of
`tenantGuardInner` never reach the caller. -/
theorem tenantCanActivate_generic_unauthorized :
    ∀ (session : Option SessionState) (hostname : String) (now : Nat),
      (∃ uid t, (tenantCanActivate session hostname now).1 = .allow uid t) ∨
      (tenantCanActivate session hostname now).1 = .unauthorized "Unauthorized" := by
  intro s h now
  unfold tenantCanActivate
  cases hg : tenantGuardInner s h now with
  | mk r s' =>
    cases r with
    | allow uid t => exact Or.inl ⟨uid, t, by simp [hg]⟩
    | unauthorized m => exact Or.inr (by simp [hg])

/-- C9: a redemption whose token is present, unexpired and host-matching
but whose request carries no session object fails with
`'Session not available'` and leaves the token store untouched, so a later
redemption of the same token (with a session, before expiry) still
succeeds. -/
theorem verifyTenantToken_no_session_preserves_token
    (m : TokenMap) (us : List User) (tok host : String) (d : TempAuthToken)
    (s : SessionState) (now now₂ : Nat)
    (hm : m tok = some d)
    (hexp : ¬(d.expires < now))
    (hhost : strIncludes host d.tenantId = true)
    (hexp₂ : ¬(d.expires < now₂)) :
    (verifyTenantToken m us tok host none now).result =
      ⟨false, some "Session not available"⟩ ∧
    (verifyTenantToken m us tok host none now).tokens = m ∧
    (verifyTenantToken m us tok host (some s) now₂).result.success = true := by
  refine ⟨?_, ?_, ?_⟩ <;>
    simp [verifyTenantToken, hm, hexp, hexp₂, hhost]

/-- Witness for C9: token `"tok"` bound to tenant `"acme"`, request on
`acme.lvh.me` with no session at `now = 50`, then with a session at
`now = 60`, both before the expiry `100`. -/
theorem verifyTenantToken_no_session_preserves_token_witness :
    (verifyTenantToken (TokenMap.empty.set "tok" ⟨"1", "acme", 100⟩) users
        "tok" "acme.lvh.me" none 50).result =
      ⟨false, some "Session not available"⟩ ∧
    (verifyTenantToken (TokenMap.empty.set "tok" ⟨"1", "acme", 100⟩) users
        "tok" "acme.lvh.me" none 50).tokens =
      TokenMap.empty.set "tok" ⟨"1", "acme", 100⟩ ∧
    (verifyTenantToken (TokenMap.empty.set "tok" ⟨"1", "acme", 100⟩) users
        "tok" "acme.lvh.me" (some ⟨none, none⟩) 60).result.success = true :=
  verifyTenantToken_no_session_preserves_token
    (TokenMap.empty.set "tok" ⟨"1", "acme", 100⟩) users "tok" "acme.lvh.me"
    ⟨"1", "acme", 100⟩ ⟨none, none⟩ 50 60
    (by decide) (by decide) (by decide) (by decide)

/-- C1 counterexample: a call of `verifyTenantToken` whose token is
present, unexpired and host-matching ("otherwise" per the claim) does NOT
delete the record and does NOT succeed when the request carries no session
object: it fails with `'Session not available'` and the record stays in
the store, contradicting the claim's "otherwise it deletes the record and
returns the bound principal/tenant pair". -/
theorem redeem_claim_counterexample :
    (TokenMap.empty.set "tok" ⟨"1", "acme", 100⟩) "tok" = some ⟨"1", "acme", 100⟩ ∧
    ¬((100 : Nat) < 50) ∧
    strIncludes "acme.lvh.me" "acme" = true ∧
    (verifyTenantToken (TokenMap.empty.set "tok" ⟨"1", "acme", 100⟩) users
        "tok" "acme.lvh.me" none 50).result =
      ⟨false, some "Session not available"⟩ ∧
    (verifyTenantToken (TokenMap.empty.set "tok" ⟨"1", "acme", 100⟩) users
        "tok" "acme.lvh.me" none 50).tokens "tok" = some ⟨"1", "acme", 100⟩ := by
  refine ⟨rfl, by omega, rfl, rfl, rfl⟩

/-- C1 (amended): the full redemption case analysis of
`verifyTenantToken`. Absent token → `TokenInvalid`
(`'Invalid or expired token'`), state unchanged. Expired token → deleted,
`TokenExpired` (`'Token expired'`). Host not containing the bound tenant →
`TenantMismatch` (`'Invalid tenant'`), record NOT deleted. Otherwise, when
a session object is available, the record is deleted and the session is
bound to the stored principal/tenant pair; when no session object is
available the call fails with `'Session not available'` and the record is
NOT deleted. -/
theorem verifyTenantToken_cases (m : TokenMap) (us : List User)
    (tok host : String) (s : Option SessionState) (now : Nat) :
    (m tok = none →
      verifyTenantToken m us tok host s now =
        ⟨⟨false, some "Invalid or expired token"⟩, m, s⟩) ∧
    (∀ d, m tok = some d → d.expires < now →
      (verifyTenantToken m us tok host s now).result =
        ⟨false, some "Token expired"⟩ ∧
      (verifyTenantToken m us tok host s now).tokens tok = none) ∧
    (∀ d, m tok = some d → ¬(d.expires < now) →
        strIncludes host d.tenantId = false →
      verifyTenantToken m us tok host s now =
        ⟨⟨false, some "Invalid tenant"⟩, m, s⟩) ∧
    (∀ d ss, m tok = some d → ¬(d.expires < now) →
        strIncludes host d.tenantId = true → s = some ss →
      (verifyTenantToken m us tok host s now).result = ⟨true, none⟩ ∧
      (verifyTenantToken m us tok host s now).tokens tok = none ∧
      ∃ e, (verifyTenantToken m us tok host s now).session =
        some ⟨some ⟨d.id, some e, none, some d.tenantId, none⟩, some now⟩) ∧
    (∀ d, m tok = some d → ¬(d.expires < now) →
        strIncludes host d.tenantId = true → s = none →
      (verifyTenantToken m us tok host s now).result =
        ⟨false, some "Session not available"⟩ ∧
      (verifyTenantToken m us tok host s now).tokens tok = some d) := by
  refine ⟨?_, ?_, ?_, ?_, ?_⟩
  · intro h0
    simp [verifyTenantToken, h0]
  · intro d hm hexp
    simp [verifyTenantToken, hm, hexp, TokenMap.del]
  · intro d hm hexp hhost
    simp [verifyTenantToken, hm, hexp, hhost]
  · intro d ss hm hexp hhost hs
    subst hs
    refine ⟨?_, ?_, ?_⟩
    · simp [verifyTenantToken, hm, hexp, hhost]
    · simp [verifyTenantToken, hm, hexp, hhost, TokenMap.del]
    · cases hf : findById us d.id d.tenantId with
      | none =>
        exact ⟨"unknown@example.com",
          by simp [verifyTenantToken, hm, hexp, hhost, hf]⟩
      | some usr =>
        by_cases he : usr.email = ""
        · exact ⟨"unknown@example.com",
            by simp [verifyTenantToken, hm, hexp, hhost, hf, he]⟩
        · exact ⟨usr.email,
            by simp [verifyTenantToken, hm, hexp, hhost, hf, he]⟩
  · intro d hm hexp hhost hs
    subst hs
    simp [verifyTenantToken, hm, hexp, hhost]

/-- Witness for C1 (amended) at the success branch: a present, unexpired,
host-matching token redeemed with a session object is deleted and binds
the session to the stored pair. -/
theorem verifyTenantToken_cases_witness :
    (verifyTenantToken (TokenMap.empty.set "tok" ⟨"1", "acme", 100⟩) users
        "tok" "acme.lvh.me" (some ⟨none, none⟩) 50).result = ⟨true, none⟩ ∧
    (verifyTenantToken (TokenMap.empty.set "tok" ⟨"1", "acme", 100⟩) users
        "tok" "acme.lvh.me" (some ⟨none, none⟩) 50).tokens "tok" = none ∧
    ∃ e, (verifyTenantToken (TokenMap.empty.set "tok" ⟨"1", "acme", 100⟩) users
        "tok" "acme.lvh.me" (some ⟨none, none⟩) 50).session =
      some ⟨some ⟨"1", some e, none, some "acme", none⟩, some 50⟩ :=
  (verifyTenantToken_cases (TokenMap.empty.set "tok" ⟨"1", "acme", 100⟩) users
      "tok" "acme.lvh.me" (some ⟨none, none⟩) 50).2.2.2.1
    ⟨"1", "acme", 100⟩ ⟨none, none⟩ rfl (by decide) (by decide) rfl

/-- C2: for a tenant `t` in the session principal's tenants, a token
issued by `initSession` (the `initiateHandoff` route) is redeemed exactly
once: the issuance redirects and stores the token bound to
`(principal, t)` with a 30s expiry; the first redemption on a host
matching `t`, before expiry and with a session object, succeeds; a second
redemption of the same token — on any host, session and time — fails with
`TokenInvalid` (`'Invalid or expired token'`). -/
theorem handoff_token_single_use (u : SessionUser) (t tok host host₂ : String)
    (m : TokenMap) (us : List User) (s s₂ : SessionState)
    (now₁ now₂ now₃ : Nat)
    (hid : u.id ≠ "")
    (ht : (u.tenants.getD []).contains t = true)
    (hhost : strIncludes host t = true)
    (hfresh : ¬(now₁ + 30000 < now₂)) :
    (∃ url, (initSession (some u) t m tok now₁).1 = .redirect 301 url) ∧
    (initSession (some u) t m tok now₁).2 tok = some ⟨u.id, t, now₁ + 30000⟩ ∧
    (verifyTenantToken (initSession (some u) t m tok now₁).2 us tok host
        (some s) now₂).result = ⟨true, none⟩ ∧
    (verifyTenantToken
        (verifyTenantToken (initSession (some u) t m tok now₁).2 us tok host
          (some s) now₂).tokens
        us tok host₂ (some s₂) now₃).result =
      ⟨false, some "Invalid or expired token"⟩ := by
  have hid' : (u.id == "") = false := by
    simp only [beq_eq_false_iff_ne, ne_eq]; exact hid
  have htm : t ∈ u.tenants.getD [] := by simpa using ht
  have h30 : ¬(now₁ + 30000 < now₁) := by omega
  have hinit :
      initSession (some u) t m tok now₁ =
        (.redirect 301
          ("http://" ++ t ++ ".lvh.me:5173/api/tenant/verify-token/" ++ tok),
          cleanExpiredTokens (m.set tok ⟨u.id, t, now₁ + 30000⟩) now₁) := by
    simp [initSession, hid', htm, generateTenantToken]
  have hm2 : (initSession (some u) t m tok now₁).2 tok =
      some ⟨u.id, t, now₁ + 30000⟩ := by
    rw [hinit]
    simp [cleanExpiredTokens, TokenMap.set, h30]
  have hexp : ¬((⟨u.id, t, now₁ + 30000⟩ : TempAuthToken).expires < now₂) := hfresh
  have hv1res :
      (verifyTenantToken (initSession (some u) t m tok now₁).2 us tok host
        (some s) now₂).result = ⟨true, none⟩ := by
    simp [verifyTenantToken, hm2, hexp, hhost]
  have hv1tok :
      (verifyTenantToken (initSession (some u) t m tok now₁).2 us tok host
        (some s) now₂).tokens tok = none := by
    simp [verifyTenantToken, hm2, hexp, hhost, TokenMap.del]
  refine ⟨⟨_, by rw [hinit]⟩, hm2, hv1res, ?_⟩
  generalize hM :
    (verifyTenantToken (initSession (some u) t m tok now₁).2 us tok host
      (some s) now₂).tokens = M₂ at hv1tok ⊢
  simp [verifyTenantToken, hv1tok]

/-- Witness for C2: principal `"1"` with tenants `["acme", "globex"]`
issues a handoff for `"acme"`, redeems it on `acme.lvh.me` within 30s, and
the second redemption fails. -/
theorem handoff_token_single_use_witness :
    (∃ url,
      (initSession (some ⟨"1", some "john@example.com", none, none,
          some ["acme", "globex"]⟩) "acme" TokenMap.empty "tok" 0).1 =
        .redirect 301 url) ∧
    (initSession (some ⟨"1", some "john@example.com", none, none,
        some ["acme", "globex"]⟩) "acme" TokenMap.empty "tok" 0).2 "tok" =
      some ⟨"1", "acme", 30000⟩ ∧
    (verifyTenantToken
        (initSession (some ⟨"1", some "john@example.com", none, none,
          some ["acme", "globex"]⟩) "acme" TokenMap.empty "tok" 0).2 users
        "tok" "acme.lvh.me" (some ⟨none, none⟩) 10).result = ⟨true, none⟩ ∧
    (verifyTenantToken
        (verifyTenantToken
          (initSession (some ⟨"1", some "john@example.com", none, none,
            some ["acme", "globex"]⟩) "acme" TokenMap.empty "tok" 0).2 users
          "tok" "acme.lvh.me" (some ⟨none, none⟩) 10).tokens
        users "tok" "acme.lvh.me" (some ⟨none, none⟩) 20).result =
      ⟨false, some "Invalid or expired token"⟩ :=
  handoff_token_single_use
    ⟨"1", some "john@example.com", none, none, some ["acme", "globex"]⟩
    "acme" "tok" "acme.lvh.me" "acme.lvh.me" TokenMap.empty users
    ⟨none, none⟩ ⟨none, none⟩ 0 10 20
    (by decide) (by decide) (by decide) (by decide)

/-- C3: a request through the Tenant-Domain Guard with a bound session
whose idle duration `now - lastActivity` exceeds 1,200,000 ms has its
session destroyed synchronously (the returned session state is `none`) and
fails — internally `SessionExpired`
(`'Session expired due to inactivity'`), surfaced as `Unauthorized`; a
following request with the destroyed (absent) session fails with
`NoSession` (`'No session found'`). A missing `lastActivity` is treated as
`now` (zero idle): the guard then never reports idle expiry and never
destroys the session. -/
theorem tenant_guard_idle_expiry (s : SessionState) (u : SessionUser)
    (host host₂ : String) (now now₂ : Nat)
    (hu : s.user = some u) :
    (now - jsOrNat s.lastAccess now > 1200000 →
      tenantGuardInner (some s) host now =
        (.unauthorized "Session expired due to inactivity", none) ∧
      tenantCanActivate (some s) host now = (.unauthorized "Unauthorized", none) ∧
      tenantGuardInner none host₂ now₂ = (.unauthorized "No session found", none)) ∧
    (s.lastAccess = none →
      (tenantGuardInner (some s) host now).1 ≠
        .unauthorized "Session expired due to inactivity" ∧
      (tenantGuardInner (some s) host now).2 ≠ none) := by
  constructor
  · intro hidle
    have h1 : tenantGuardInner (some s) host now =
        (.unauthorized "Session expired due to inactivity", none) := by
      simp [tenantGuardInner, hu, hidle]
    refine ⟨h1, ?_, by simp [tenantGuardInner]⟩
    simp [tenantCanActivate, h1]
  · intro hla
    by_cases hh : host = "login.lvh.me"
    · simp [tenantGuardInner, hu, hla, jsOrNat, hh]
    · cases htt : u.tenant with
      | none => simp [tenantGuardInner, hu, hla, jsOrNat, hh, htt]
      | some t =>
        by_cases hte : t = ""
        · simp [tenantGuardInner, hu, hla, jsOrNat, hh, htt, hte]
        · cases hinc : strIncludes host t with
          | true => simp [tenantGuardInner, hu, hla, jsOrNat, hh, htt, hte, hinc]
          | false => simp [tenantGuardInner, hu, hla, jsOrNat, hh, htt, hte, hinc]

/-- Witness for C3 at a concrete state: `lastActivity = 1`,
`now = 1300002` (idle 1300001 ms), the guard destroys and rejects, the
next request gets `NoSession`. -/
theorem tenant_guard_idle_expiry_witness :
    tenantGuardInner
        (some ⟨some ⟨"1", none, none, some "acme", none⟩, some 1⟩)
        "acme.lvh.me" 1300002 =
      (.unauthorized "Session expired due to inactivity", none) ∧
    tenantCanActivate
        (some ⟨some ⟨"1", none, none, some "acme", none⟩, some 1⟩)
        "acme.lvh.me" 1300002 =
      (.unauthorized "Unauthorized", none) ∧
    tenantGuardInner none "acme.lvh.me" 1300003 =
      (.unauthorized "No session found", none) :=
  (tenant_guard_idle_expiry
      ⟨some ⟨"1", none, none, some "acme", none⟩, some 1⟩
      ⟨"1", none, none, some "acme", none⟩
      "acme.lvh.me" "acme.lvh.me" 1300002 1300003 rfl).1 (by decide)

/-- C4 counterexample: a successful redemption whose `(principalId,
tenantId)` pair is NOT in the user directory (`findById` returns `none`)
still succeeds and creates a session with the placeholder email
`'unknown@example.com'`, contradicting the claim that tenant membership is
re-validated at redemption and that the session carries the looked-up
principal's email. -/
theorem redeem_membership_counterexample :
    findById users "2" "acme" = none ∧
    (verifyTenantToken (TokenMap.empty.set "tk" ⟨"2", "acme", 100⟩) users
        "tk" "acme.lvh.me" (some ⟨none, none⟩) 50).result = ⟨true, none⟩ ∧
    (verifyTenantToken (TokenMap.empty.set "tk" ⟨"2", "acme", 100⟩) users
        "tk" "acme.lvh.me" (some ⟨none, none⟩) 50).session =
      some ⟨some ⟨"2", some "unknown@example.com", none, some "acme", none⟩,
        some 50⟩ := by
  refine ⟨rfl, rfl, rfl⟩

/-- C4 (amended): every successful redemption looks the principal up via
`findById` keyed by `(principalId, tenantId)` and creates a session with a
fresh `lastActivity`; when the lookup succeeds (with a non-empty email)
the session carries the looked-up email, but when the lookup fails the
redemption still succeeds with the placeholder email — the tenant-scoped
lookup is consulted, not enforced. -/
theorem redeem_principal_lookup (m : TokenMap) (us : List User)
    (tok host : String) (s : SessionState) (now : Nat) (d : TempAuthToken)
    (hm : m tok = some d)
    (hexp : ¬(d.expires < now))
    (hhost : strIncludes host d.tenantId = true) :
    (∀ pu, findById us d.id d.tenantId = some pu → pu.email ≠ "" →
      (verifyTenantToken m us tok host (some s) now).result = ⟨true, none⟩ ∧
      (verifyTenantToken m us tok host (some s) now).session =
        some ⟨some ⟨d.id, some pu.email, none, some d.tenantId, none⟩,
          some now⟩) ∧
    (findById us d.id d.tenantId = none →
      (verifyTenantToken m us tok host (some s) now).result = ⟨true, none⟩ ∧
      (verifyTenantToken m us tok host (some s) now).session =
        some ⟨some ⟨d.id, some "unknown@example.com", none, some d.tenantId,
          none⟩, some now⟩) := by
  constructor
  · intro pu hpu hemail
    have he : (pu.email == "") = false := by
      simp only [beq_eq_false_iff_ne, ne_eq]; exact hemail
    constructor <;> simp [verifyTenantToken, hm, hexp, hhost, hpu, he]
  · intro hnone
    constructor <;> simp [verifyTenantToken, hm, hexp, hhost, hnone]

/-- Witness for C4 (amended): the member pair `("1", "acme")` of the
in-memory directory redeems with the looked-up email
`john@example.com`. -/
theorem redeem_principal_lookup_witness :
    (verifyTenantToken (TokenMap.empty.set "tk" ⟨"1", "acme", 100⟩) users
        "tk" "acme.lvh.me" (some ⟨none, none⟩) 50).result = ⟨true, none⟩ ∧
    (verifyTenantToken (TokenMap.empty.set "tk" ⟨"1", "acme", 100⟩) users
        "tk" "acme.lvh.me" (some ⟨none, none⟩) 50).session =
      some ⟨some ⟨"1", some (users.get ⟨0, by decide⟩).email, none,
        some "acme", none⟩, some 50⟩ :=
  (redeem_principal_lookup (TokenMap.empty.set "tk" ⟨"1", "acme", 100⟩) users
      "tk" "acme.lvh.me" ⟨none, none⟩ 50 ⟨"1", "acme", 100⟩
      rfl (by decide) (by decide)).1
    (users.get ⟨0, by decide⟩) (by decide) (by decide)

/-- C5 counterexample: `initSession` for the tenant `"initech"`, which is
not among the session principal's tenants `["acme", "globex"]`, throws
`UnauthorizedException` (HTTP 401), not a `ForbiddenException` (HTTP 403)
as the claim states; no token is issued. -/
theorem initiate_handoff_forbidden_counterexample :
    (initSession (some ⟨"1", some "john@example.com", some "John Doe", none,
        some ["acme", "globex"]⟩) "initech" TokenMap.empty "tok" 0).1 =
      .error (.unauthorizedEx "User does not have access to tenant: initech") ∧
    ((initSession (some ⟨"1", some "john@example.com", some "John Doe", none,
        some ["acme", "globex"]⟩) "initech" TokenMap.empty "tok" 0).1).isForbidden
      = false ∧
    (initSession (some ⟨"1", some "john@example.com", some "John Doe", none,
        some ["acme", "globex"]⟩) "initech" TokenMap.empty "tok" 0).2 "tok" =
      none := by
  refine ⟨rfl, rfl, rfl⟩

/-- C5 (amended): for an authenticated login session (truthy user id) and
a `tenantId` not contained in the session principal's tenants,
`initSession` fails with `UnauthorizedException('User does not have access
to tenant: …')` — a 401, not the 403 `Forbidden` of the spec — and the
token store is unchanged: no token is issued. -/
theorem initiate_handoff_not_granted (u : SessionUser) (t tok : String)
    (m : TokenMap) (now : Nat)
    (hid : u.id ≠ "")
    (ht : (u.tenants.getD []).contains t = false) :
    initSession (some u) t m tok now =
      (.error (.unauthorizedEx ("User does not have access to tenant: " ++ t)),
        m) := by
  have hid' : (u.id == "") = false := by
    simp only [beq_eq_false_iff_ne, ne_eq]; exact hid
  have htm : t ∉ u.tenants.getD [] := by simpa using ht
  simp [initSession, hid', htm]

/-- Witness for C5 (amended): principal `"1"` with tenants
`["acme", "globex"]` requesting `"initech"`. -/
theorem initiate_handoff_not_granted_witness :
    initSession (some ⟨"1", some "john@example.com", none, none,
        some ["acme", "globex"]⟩) "initech" TokenMap.empty "tok" 7 =
      (.error (.unauthorizedEx "User does not have access to tenant: initech"),
        TokenMap.empty) :=
  initiate_handoff_not_granted
    ⟨"1", some "john@example.com", none, none, some ["acme", "globex"]⟩
    "initech" "tok" TokenMap.empty 7 (by decide) (by decide)

/-- C6 counterexample: the session tenant `"lvh.me"` is NOT a substring of
the subdomain component `"acme"` of the request host `"acme.lvh.me"` — by
the claim the guard must fail with `TenantMismatch` — yet the guard checks
containment in the FULL host and authorizes the request with that
tenant. -/
theorem tenant_match_subdomain_counterexample :
    specSubdomainMatch "acme.lvh.me" "lvh.me" = false ∧
    strIncludes "acme.lvh.me" "lvh.me" = true ∧
    (tenantGuardInner
        (some ⟨some ⟨"1", none, none, some "lvh.me", none⟩, some 10⟩)
        "acme.lvh.me" 20).1 = .allow "1" (some "lvh.me") := by
  refine ⟨rfl, rfl, rfl⟩

/-- C6 (amended): for a bound, non-idle-expired session, if the request
host equals the login domain's canonical host `login.lvh.me` the request
is bound with no tenant; otherwise the session's `tenantId` must be
non-empty (else `'No tenant specified'`) and a substring of the FULL
request host (not merely of its subdomain component): containment failure
is `TenantMismatch` (`'Tenant mismatch'`, surfaced as `Unauthorized`),
containment success binds the request to `(userId, tenantId)`. -/
theorem tenant_guard_host_binding (s : SessionState) (u : SessionUser)
    (host : String) (now : Nat)
    (hu : s.user = some u)
    (hidle : ¬(now - jsOrNat s.lastAccess now > 1200000)) :
    (host = "login.lvh.me" →
      (tenantGuardInner (some s) host now).1 = .allow u.id none) ∧
    (host ≠ "login.lvh.me" → (u.tenant = none ∨ u.tenant = some "") →
      (tenantGuardInner (some s) host now).1 =
        .unauthorized "No tenant specified") ∧
    (∀ t, host ≠ "login.lvh.me" → u.tenant = some t → t ≠ "" →
      strIncludes host t = false →
      (tenantGuardInner (some s) host now).1 = .unauthorized "Tenant mismatch") ∧
    (∀ t, host ≠ "login.lvh.me" → u.tenant = some t → t ≠ "" →
      strIncludes host t = true →
      (tenantGuardInner (some s) host now).1 = .allow u.id (some t)) := by
  refine ⟨?_, ?_, ?_, ?_⟩
  · intro hh
    simp [tenantGuardInner, hu, hidle, hh]
  · rintro hh (htt | htt) <;>
      simp [tenantGuardInner, hu, hidle, hh, htt]
  · intro t hh htt hte hinc
    simp [tenantGuardInner, hu, hidle, hh, htt, hte, hinc]
  · intro t hh htt hte hinc
    simp [tenantGuardInner, hu, hidle, hh, htt, hte, hinc]

/-- Witness for C6 (amended) at the mismatch branch: tenant `"globex"` on
host `"acme.lvh.me"` is rejected with `'Tenant mismatch'`. -/
theorem tenant_guard_host_binding_witness :
    (tenantGuardInner
        (some ⟨some ⟨"1", none, none, some "globex", none⟩, some 10⟩)
        "acme.lvh.me" 20).1 = .unauthorized "Tenant mismatch" :=
  (tenant_guard_host_binding
      ⟨some ⟨"1", none, none, some "globex", none⟩, some 10⟩
      ⟨"1", none, none, some "globex", none⟩ "acme.lvh.me" 20
      rfl (by decide)).2.2.1
    "globex" (by decide) rfl (by decide) (by decide)

/-- C7: a request through the Login-Domain Guard whose session is absent,
or whose session has no bound user, is redirected to the login page with
the tenant hint exactly when the route is a tenant-login-initiation route
(`req.url` contains `'/login/'`) with a truthy tenant parameter; every
other such request fails with an `UnauthorizedException`. -/
theorem login_guard_unauthenticated (session : Option SessionState)
    (url : String) (host : Option String) (tid : Option String)
    (hnosess : session = none ∨ ∃ s, session = some s ∧ s.user = none) :
    (∀ t, tid = some t → t ≠ "" → strIncludes url "/login/" = true →
      loginCanActivate session url host tid =
        .redirect ("http://login.lvh.me:3000/login?tenantId=" ++ t)) ∧
    ((jsTruthyStr tid = false ∨ strIncludes url "/login/" = false) →
      ∃ msg, loginCanActivate session url host tid = .unauthorized msg) := by
  constructor
  · intro t htid hte hurl
    have hte' : (t == "") = false := by
      simp only [beq_eq_false_iff_ne, ne_eq]; exact hte
    have hred : handleLoginRedirect url tid =
        .ok (.redirect ("http://login.lvh.me:3000/login?tenantId=" ++ t)) := by
      simp [handleLoginRedirect, htid, hurl, hte']
    rcases hnosess with h0 | ⟨s, hs, hsu⟩
    · simp [loginCanActivate, h0, hred]
    · simp [loginCanActivate, hs, hsu, hred]
  · intro hother
    have hthrown : handleLoginRedirect url tid =
        .thrown "Unauthorized - Please log in" := by
      cases htid : tid with
      | none => simp [handleLoginRedirect]
      | some t =>
        rcases hother with h | h
        · rw [htid] at h
          simp only [jsTruthyStr] at h
          simp [handleLoginRedirect, h]
        · simp [handleLoginRedirect, h]
    rcases hnosess with h0 | ⟨s, hs, hsu⟩ <;>
      [(simp only [loginCanActivate, h0]); (simp only [loginCanActivate, hs, hsu])] <;>
      · rw [hthrown]
        by_cases htr : jsTruthyStr tid = true
        · simp only [htr, if_true, hthrown]
          exact ⟨_, rfl⟩
        · simp only [eq_false_of_ne_true htr, if_false]
          exact ⟨_, rfl⟩

/-- Witness for C7: with no session, the tenant-login route
`/login/acme` with parameter `"acme"` redirects with the hint; the
non-login route `/api/auth/init-session/acme` is rejected. -/
theorem login_guard_unauthenticated_witness :
    loginCanActivate none "/login/acme" (some "login.lvh.me") (some "acme") =
      .redirect "http://login.lvh.me:3000/login?tenantId=acme" ∧
    ∃ msg, loginCanActivate none "/api/auth/init-session/acme"
        (some "login.lvh.me") (some "acme") = .unauthorized msg :=
  ⟨(login_guard_unauthenticated none "/login/acme" (some "login.lvh.me")
        (some "acme") (Or.inl rfl)).1 "acme" rfl (by decide) (by decide),
    (login_guard_unauthenticated none "/api/auth/init-session/acme"
        (some "login.lvh.me") (some "acme") (Or.inl rfl)).2
      (Or.inr (by decide))⟩

end MultiTenant
